import Mathlib

/-!
Verification of the youtube-playlist-builder core pipeline against its two
source variants, `app/builder_lambda.py` and `app/main.py`.

The embedding models:
  * the cutoff-date resolver `_compute_cutoff_iso` of both variants,
    over instants measured in whole seconds since 1970-01-01T00:00:00Z and
    calendar dates measured in whole days since 1970-01-01 (Python date
    subtraction yields exactly the ordinal-day difference, so an Int day
    number is a faithful model of `datetime.date` for this code);
  * the paginated multi-channel/multi-query search `_search_videos` of
    `builder_lambda.py`, with the external YouTube Data API modelled as an
    oracle mapping each request to its response (success or HttpError);
  * the playlist population loop `_add_videos_to_playlist`;
  * both top-level `handler` functions, instrumented with an explicit trace
    of the external calls they issue, and returning `Except` where the
    Python raises.

Durations are rationals (`isodate.parse_duration(...).total_seconds()` is
exact on ISO-8601 durations without fractional parts and the comparison in
the source is an exact numeric comparison; `Rat` captures every value the
claims mention, e.g. 180.1 s). String inputs of `earliest_date` are
pre-classified by their parse outcome into the inductive `EDate`: the
program only ever inspects the calendar date of the parsed value, a trailing
Z marker, and whether parsing succeeds, so those are the constructors'
fields.
-/

namespace YPB

/-! ## Python value model for the task payload -/

/-- A boolean-ish Python value, as found in the `test_mode` field. -/
inductive PyVal where
  | bool (b : Bool)
  | str (s : String)
  | int (n : Int)
deriving DecidableEq

/-- Python truthiness `bool(v)` for the modelled values. -/
def pyBool : PyVal → Bool
  | .bool b => b
  | .str s => s != ""
  | .int n => n != 0

/-- Python `str.lower()` (character-wise lowercasing; ASCII suffices for the
values this code compares against). -/
def pyLower (s : String) : String := ⟨s.data.map Char.toLower⟩

/-- The default whitespace set of Python `str.strip()` (ASCII part). -/
def isPySpace (c : Char) : Bool :=
  c = ' ' || c = '\t' || c = '\n' || c = '\r' || c = '\x0b' || c = '\x0c'

/-- Python `str.strip()`: drop leading and trailing whitespace. -/
def pyStrip (s : String) : String :=
  ⟨((s.data.dropWhile isPySpace).reverse.dropWhile isPySpace).reverse⟩

/-- `builder_lambda.py` lines 48-52: a string-valued `test_mode` is true iff
its stripped lowercase form is one of "true", "1", "yes", "y"; any other
value goes through plain `bool(...)`. -/
def builderCoerceTestMode : PyVal → Bool
  | .str s => ["true", "1", "yes", "y"].contains (pyLower (pyStrip s))
  | v => pyBool v

/-- Python truthiness of an optional string (`None` and `""` are falsy). -/
def pyTruthyStr : Option String → Bool
  | none => false
  | some s => s != ""

/-- `a or b` for an optional string against a default. -/
def pyOrStr (a : Option String) (b : String) : String :=
  match a with
  | some s => if s != "" then s else b
  | none => b

/-! ## Calendar formatting (`datetime.isoformat(timespec="seconds")`) -/

/-- Zero-pad a small natural to two digits, as `%02d`. -/
def pad2 (n : Nat) : String :=
  if n < 10 then "0" ++ toString n else toString n

/-- Zero-pad a year to four digits, as `%04d` (Python datetimes carry years
1..9999 only, so the argument is positive in the modelled domain). -/
def pad4 (n : Int) : String :=
  if n < 10 then "000" ++ toString n
  else if n < 100 then "00" ++ toString n
  else if n < 1000 then "0" ++ toString n
  else toString n

/-- Proleptic-Gregorian civil date (year, month, day) of a day count relative
to 1970-01-01 (floor-division algorithm over eras of 400 years). -/
def civilFromDays (z0 : Int) : Int × Int × Int :=
  let z := z0 + 719468
  let era := Int.fdiv z 146097
  let doe := z - era * 146097
  let yoe := Int.fdiv (doe - Int.fdiv doe 1460 + Int.fdiv doe 36524 - Int.fdiv doe 146096) 365
  let y := yoe + era * 400
  let doy := doe - (365 * yoe + Int.fdiv yoe 4 - Int.fdiv yoe 100)
  let mp := Int.fdiv (5 * doy + 2) 153
  let d := doy - Int.fdiv (153 * mp + 2) 5 + 1
  let m := mp + (if mp < 10 then 3 else -9)
  (y + (if m ≤ 2 then 1 else 0), m, d)

/-- `datetime.isoformat(timespec="seconds")` of a UTC instant (seconds since
the epoch), without the offset suffix: `YYYY-MM-DDTHH:MM:SS`. -/
def isoUtcSeconds (t : Int) : String :=
  let days := Int.fdiv t 86400
  let sod := (t - days * 86400).toNat
  let ymd := civilFromDays days
  pad4 ymd.1 ++ "-" ++ pad2 ymd.2.1.toNat ++ "-" ++ pad2 ymd.2.2.toNat ++ "T" ++
    pad2 (sod / 3600) ++ ":" ++ pad2 (sod % 3600 / 60) ++ ":" ++ pad2 (sod % 60)

/-- The cutoff string both variants return: an aware-UTC
`isoformat(timespec="seconds")` whose "+00:00" offset has been rewritten to a
literal "Z" by `.replace("+00:00", "Z")` (the prefix contains no "+" for any
Python-representable year, so the replace rewrites exactly the suffix). -/
def isoZ (t : Int) : String := isoUtcSeconds t ++ "Z"

/-! ## The `earliest_date` input and the cutoff resolvers -/

/-- The `earliest_date` task field, classified by how the source parses it.
Fields named `d` are the calendar date (days since 1970-01-01) the value
denotes; `secOfDay` is the time-of-day in seconds of a datetime value.
  * `emptyStr` — the empty string (falsy, unparseable);
  * `dateStr d` — a valid `YYYY-MM-DD` date-only string (no "T", no "Z");
  * `dateTimeStr d secOfDay zSuffix` — a full ISO datetime string,
    optionally "Z"-suffixed;
  * `badStr` — a non-empty string neither `datetime.fromisoformat` nor
    `isodate.parse_date` accepts;
  * `dt d secOfDay` — a native `datetime.datetime` value;
  * `dateVal d` — a native `datetime.date` value;
  * `other` — a value of any other type. -/
inductive EDate where
  | emptyStr
  | dateStr (d : Int)
  | dateTimeStr (d : Int) (secOfDay : Nat) (zSuffix : Bool)
  | badStr
  | dt (d : Int) (secOfDay : Nat)
  | dateVal (d : Int)
  | other
deriving DecidableEq

/-- Python truthiness of an optional `earliest_date` value. -/
def pyTruthyEDate : Option EDate → Bool
  | none => false
  | some .emptyStr => false
  | some _ => true

/-- The taxonomy of errors the handlers raise. -/
inductive Err where
  | missingField (name : String)
  | unknownCompetition
  | valueError
  | attributeError
  | typeError
  | httpError
  | configError
  | keyError
deriving DecidableEq

/-- `days_diff = (today_sg - input_date).days` followed by
`datetime.now(timezone.utc) - timedelta(days=days_diff) - timedelta(hours=24)`
(both variants, `builder_lambda.py` lines 336-341 / `main.py` lines 145-150),
on instants in epoch seconds: 24 hours is 86400 seconds. -/
def cutoffInstant (nowUtc todayLocal d : Int) : Int :=
  nowUtc - (todayLocal - d) * 86400 - 86400

/-- `_compute_cutoff_iso` of `builder_lambda.py` (lines 299-346).
`nowUtc` is the UTC clock in epoch seconds; `todayLocal` is the calendar
date `datetime.now(ZoneInfo(APP_TZ)).date()` in epoch days. A `None` input
raises ValueError; strings are tried with `fromisoformat` (after appending
midnight to date-only forms, or turning a "Z" suffix into "+00:00") and then
with `isodate.parse_date`; datetimes lose their time via `.date()`;
date-like values are taken as they are; any other type raises TypeError. -/
def computeCutoffIsoBuilder (nowUtc todayLocal : Int) : Option EDate → Except Err String
  | none => .error .valueError
  | some .emptyStr => .error .valueError
  | some (.dateStr d) => .ok (isoZ (cutoffInstant nowUtc todayLocal d))
  | some (.dateTimeStr d _ _) => .ok (isoZ (cutoffInstant nowUtc todayLocal d))
  | some .badStr => .error .valueError
  | some (.dt d _) => .ok (isoZ (cutoffInstant nowUtc todayLocal d))
  | some (.dateVal d) => .ok (isoZ (cutoffInstant nowUtc todayLocal d))
  | some .other => .error .typeError

/-- `_compute_cutoff_iso` of `main.py` (lines 132-155). Differences from the
builder variant, all faithful to the source: a `None` input reaches
`input_dt.date()` and raises AttributeError; a non-"Z" string always gets
`'T00:00:00'` appended, so full datetime strings without "Z" fail to parse
(ValueError), as does the empty string; there is no `isodate` fallback; a
native `datetime.date` has no `.date()` method and raises AttributeError. -/
def computeCutoffIsoMain (nowUtc todayLocal : Int) : Option EDate → Except Err String
  | none => .error .attributeError
  | some .emptyStr => .error .valueError
  | some (.dateStr d) => .ok (isoZ (cutoffInstant nowUtc todayLocal d))
  | some (.dateTimeStr d _ z) =>
      if z then .ok (isoZ (cutoffInstant nowUtc todayLocal d)) else .error .valueError
  | some .badStr => .error .valueError
  | some (.dt d _) => .ok (isoZ (cutoffInstant nowUtc todayLocal d))
  | some (.dateVal _) => .error .attributeError
  | some .other => .error .attributeError

/-! ## The video search engine (`_search_videos`, builder_lambda.py 197-271) -/

/-- A video identifier. -/
abbrev VideoId := String

/-- One item of a `search.list` response: `it["id"].get("videoId")` may be
absent (non-video results). -/
structure SearchItem where
  videoId : Option VideoId
deriving DecidableEq

/-- One page of `search.list` results: its items, and whether the response
carries a `nextPageToken`. Page tokens are opaque and each page determines
the next, so pages are indexed by how many pages were fetched before. -/
structure Page where
  items : List SearchItem
  hasNext : Bool
deriving DecidableEq

/-- One item of a `videos.list` response: the video's id and its parsed
duration in seconds (`isodate.parse_duration(...).total_seconds()`). -/
structure DetailItem where
  id : VideoId
  duration : Rat
deriving DecidableEq

/-- The YouTube Data API as seen by the search phase. `searchPage` maps a
request (channel id, query, `publishedAfter` cutoff, region code, page
index) to a page or an HttpError; `videosList` maps the batched candidate-id
list to the metadata response or an HttpError. -/
structure Oracle where
  searchPage : String → String → String → String → Nat → Except Unit Page
  videosList : List VideoId → Except Unit (List DetailItem)

/-- The per-competition channel configuration, with the `.get` defaults of
`builder_lambda.py` lines 199-202 applied. -/
structure Cfg where
  channel_ids : List String := []
  search_filter : String := ""
  min_duration_minutes : Rat := 3
  search_keywords : List String := []

/-- Lines 209-211: `queries = [search_filter] if search_filter else []`
followed by `queries.extend(search_keywords)` (the guard `if search_keywords`
only skips extending by an empty list, which changes nothing). -/
def buildQueries (cfg : Cfg) : List String :=
  (if cfg.search_filter != "" then [cfg.search_filter] else []) ++ cfg.search_keywords

/-- Lines 244-255: collect the page's candidate ids; when there are any,
issue one `videos.list` call, and on HttpError fall back to
`details = {"items": []}` — the page's candidates are discarded but nothing
is aborted. -/
def pageDetails (o : Oracle) (page : Page) : List DetailItem :=
  let cand_ids := page.items.filterMap SearchItem.videoId
  if cand_ids.isEmpty then []
  else
    match o.videosList cand_ids with
    | .error _ => []
    | .ok ds => ds

/-- Lines 257-263: the admission loop over one metadata response. A video is
appended (and marked seen) iff `dur_s > min_duration_seconds and vid not in
seen`. The `seen` set is modelled as a list with membership. -/
def processItems (minSec : Rat) :
    List DetailItem → List VideoId → List VideoId → List VideoId × List VideoId
  | [], seen, vids => (seen, vids)
  | v :: rest, seen, vids =>
    if minSec < v.duration ∧ v.id ∉ seen then
      processItems minSec rest (v.id :: seen) (vids ++ [v.id])
    else
      processItems minSec rest seen vids

/-- Lines 226-268: the `while True` page loop for one channel/query pair,
entered with `page_token = None, pages = 0`. A `search.list` HttpError breaks
out of the loop; otherwise the page is processed and the loop continues iff
a next-page token exists and fewer than `max_pages` pages have been fetched
(`pages += 1; if not page_token or pages >= max_pages: break`). Returns the
updated `(seen, video_ids)` state and the number of `search.list` requests
issued. -/
def pageLoop (o : Oracle) (ch q cutoff region : String) (minSec : Rat) (max_pages : Nat)
    (pages : Nat) (seen vids : List VideoId) : (List VideoId × List VideoId) × Nat :=
  match o.searchPage ch q cutoff region pages with
  | .error _ => ((seen, vids), 1)
  | .ok page =>
    let sv := processItems minSec (pageDetails o page) seen vids
    if h : page.hasNext = true ∧ pages + 1 < max_pages then
      let r := pageLoop o ch q cutoff region minSec max_pages (pages + 1) sv.1 sv.2
      (r.1, r.2 + 1)
    else
      (sv, 1)
termination_by max_pages - pages
decreasing_by omega

/-- The sequence of metadata items the page loop processes for one
channel/query pair, in processing order (pagination control never depends on
the dedup state, so this stream is a function of the oracle alone). -/
def pageStream (o : Oracle) (ch q cutoff region : String) (max_pages : Nat)
    (pages : Nat) : List DetailItem :=
  match o.searchPage ch q cutoff region pages with
  | .error _ => []
  | .ok page =>
    if _h : page.hasNext = true ∧ pages + 1 < max_pages then
      pageDetails o page ++ pageStream o ch q cutoff region max_pages (pages + 1)
    else
      pageDetails o page
termination_by max_pages - pages
decreasing_by omega

/-- Lines 220-221: the nested iteration order, channels outermost, each with
the full query list. -/
def combos (cfg : Cfg) : List (String × String) :=
  (cfg.channel_ids.map (fun ch => (buildQueries cfg).map (fun q => (ch, q)))).flatten

/-- The outer double loop of `_search_videos`, threading `(seen, video_ids)`
through every channel/query combination. -/
def searchLoop (o : Oracle) (cutoff region : String) (minSec : Rat) (max_pages : Nat) :
    List (String × String) → List VideoId → List VideoId → List VideoId × List VideoId
  | [], seen, vids => (seen, vids)
  | p :: rest, seen, vids =>
    let sv := (pageLoop o p.1 p.2 cutoff region minSec max_pages 0 seen vids).1
    searchLoop o cutoff region minSec max_pages rest sv.1 sv.2

/-- The log events of the search phase the claims talk about. -/
inductive LogEvent where
  | warnNoQueries
deriving DecidableEq

/-- What `_search_videos` produces: the returned `video_ids` list and the
relevant log events. -/
structure SearchOut where
  video_ids : List VideoId
  log : List LogEvent
deriving DecidableEq

/-- `_search_videos` (builder_lambda.py lines 197-271): duration threshold in
seconds is `min_duration_minutes * 60`; with no usable query the function
logs a warning and returns the empty list (lines 213-215); otherwise it runs
the nested channel/query/page loops and returns the accumulated
`video_ids`. -/
def searchVideos (o : Oracle) (cfg : Cfg) (cutoff_iso region_code : String)
    (max_pages : Nat) : SearchOut :=
  let min_duration_seconds := cfg.min_duration_minutes * 60
  let queries := buildQueries cfg
  if queries.isEmpty then { video_ids := [], log := [.warnNoQueries] }
  else
    { video_ids :=
        (searchLoop o cutoff_iso region_code min_duration_seconds max_pages
          (combos cfg) [] []).2,
      log := [] }

/-- The full stream of metadata items the search processes, across all
channel/query combinations in iteration order. -/
def encounterStream (o : Oracle) (cfg : Cfg) (cutoff region : String)
    (max_pages : Nat) : List DetailItem :=
  ((combos cfg).map (fun p => pageStream o p.1 p.2 cutoff region max_pages 0)).flatten

/-- The identifiers of the stream's items that pass the strict duration
check, in encounter order (with multiplicity). -/
def qualIds (minSec : Rat) (items : List DetailItem) : List VideoId :=
  (items.filter (fun d => minSec < d.duration)).map DetailItem.id

/-- Specification-level first-occurrence deduplication: keep each identifier
at its first position, drop later repeats. -/
def insStep (acc : List VideoId) (x : VideoId) : List VideoId :=
  if x ∈ acc then acc else acc ++ [x]

/-- Specification-level: the first-encountered-order deduplication of a
sequence of identifiers. -/
def specDedupFirst (l : List VideoId) : List VideoId :=
  l.foldl insStep []

/-! ## Structural lemmas about the search loops -/

theorem processItems_append (minSec : Rat) (a b : List DetailItem) :
    ∀ (seen vids : List VideoId),
      processItems minSec (a ++ b) seen vids =
        processItems minSec b (processItems minSec a seen vids).1
          (processItems minSec a seen vids).2 := by
  induction a with
  | nil => intro seen vids; rfl
  | cons v rest ih =>
    intro seen vids
    by_cases hc : minSec < v.duration ∧ v.id ∉ seen
    · simp only [List.cons_append, processItems, if_pos hc]
      exact ih _ _
    · simp only [List.cons_append, processItems, if_neg hc]
      exact ih _ _

theorem processItems_foldl (minSec : Rat) :
    ∀ (items : List DetailItem) (seen vids : List VideoId),
      (∀ x, x ∈ seen ↔ x ∈ vids) →
      (processItems minSec items seen vids).2 =
          List.foldl insStep vids (qualIds minSec items) ∧
        (∀ x, x ∈ (processItems minSec items seen vids).1 ↔
          x ∈ (processItems minSec items seen vids).2) := by
  intro items
  induction items with
  | nil => intro seen vids h; exact ⟨rfl, h⟩
  | cons v rest ih =>
    intro seen vids h
    by_cases hd : minSec < v.duration
    · by_cases hs : v.id ∈ seen
      · have hv : v.id ∈ vids := (h v.id).mp hs
        have hc : ¬ (minSec < v.duration ∧ v.id ∉ seen) := by
          intro hc; exact hc.2 hs
        have hstep : processItems minSec (v :: rest) seen vids =
            processItems minSec rest seen vids := by
          simp only [processItems]; rw [if_neg hc]
        have hfil : qualIds minSec (v :: rest) = v.id :: qualIds minSec rest := by
          simp [qualIds, hd]
        have hins : insStep vids v.id = vids := by simp [insStep, hv]
        rw [hstep, hfil, List.foldl_cons, hins]
        exact ih seen vids h
      · have hv : v.id ∉ vids := fun hv => hs ((h v.id).mpr hv)
        have hc : minSec < v.duration ∧ v.id ∉ seen := ⟨hd, hs⟩
        have h' : ∀ x, x ∈ v.id :: seen ↔ x ∈ vids ++ [v.id] := by
          intro x
          simp only [List.mem_cons, List.mem_append, List.mem_singleton, h x]
          tauto
        have hstep : processItems minSec (v :: rest) seen vids =
            processItems minSec rest (v.id :: seen) (vids ++ [v.id]) := by
          simp only [processItems]; rw [if_pos hc]
        have hfil : qualIds minSec (v :: rest) = v.id :: qualIds minSec rest := by
          simp [qualIds, hd]
        have hins : insStep vids v.id = vids ++ [v.id] := by simp [insStep, hv]
        rw [hstep, hfil, List.foldl_cons, hins]
        exact ih _ _ h'
    · have hc : ¬ (minSec < v.duration ∧ v.id ∉ seen) := by
        intro hc; exact hd hc.1
      have hstep : processItems minSec (v :: rest) seen vids =
          processItems minSec rest seen vids := by
        simp only [processItems]; rw [if_neg hc]
      have hfil : qualIds minSec (v :: rest) = qualIds minSec rest := by
        simp [qualIds, hd]
      rw [hstep, hfil]
      exact ih seen vids h

theorem foldl_insStep_nodup :
    ∀ (l : List VideoId) (v : List VideoId), v.Nodup → (List.foldl insStep v l).Nodup := by
  intro l
  induction l with
  | nil => intro v hv; exact hv
  | cons x rest ih =>
    intro v hv
    simp only [List.foldl_cons]
    apply ih
    by_cases hx : x ∈ v
    · simpa [insStep, hx] using hv
    · simp [insStep, hx, List.nodup_append, hv]

theorem mem_foldl_insStep :
    ∀ (l : List VideoId) (v : List VideoId) (x : VideoId),
      x ∈ List.foldl insStep v l ↔ x ∈ v ∨ x ∈ l := by
  intro l
  induction l with
  | nil => intro v x; simp
  | cons a rest ih =>
    intro v x
    simp only [List.foldl_cons, ih, List.mem_cons]
    by_cases ha : a ∈ v
    · simp only [insStep, if_pos ha]
      constructor
      · rintro (hx | hx)
        · exact Or.inl hx
        · exact Or.inr (Or.inr hx)
      · rintro (hx | hx | hx)
        · exact Or.inl hx
        · exact Or.inl (hx ▸ ha)
        · exact Or.inr hx
    · simp only [insStep, if_neg ha, List.mem_append, List.mem_singleton]
      tauto

theorem pageLoop_fst (o : Oracle) (ch q cutoff region : String) (minSec : Rat)
    (max_pages : Nat) :
    ∀ (pages : Nat) (seen vids : List VideoId),
      (pageLoop o ch q cutoff region minSec max_pages pages seen vids).1 =
        processItems minSec (pageStream o ch q cutoff region max_pages pages) seen vids := by
  suffices h : ∀ (n pages : Nat), max_pages - pages = n → ∀ (seen vids : List VideoId),
      (pageLoop o ch q cutoff region minSec max_pages pages seen vids).1 =
        processItems minSec (pageStream o ch q cutoff region max_pages pages) seen vids by
    intro pages seen vids
    exact h (max_pages - pages) pages rfl seen vids
  intro n
  induction n with
  | zero =>
    intro pages hn seen vids
    rw [pageLoop.eq_def, pageStream.eq_def]
    cases hr : o.searchPage ch q cutoff region pages with
    | error e => rfl
    | ok page =>
      have hcond : ¬ (page.hasNext = true ∧ pages + 1 < max_pages) := by
        rintro ⟨_, hlt⟩; omega
      simp only [dif_neg hcond]
  | succ k ih =>
    intro pages hn seen vids
    rw [pageLoop.eq_def, pageStream.eq_def]
    cases hr : o.searchPage ch q cutoff region pages with
    | error e => rfl
    | ok page =>
      by_cases hcond : page.hasNext = true ∧ pages + 1 < max_pages
      · simp only [dif_pos hcond]
        rw [processItems_append]
        exact ih (pages + 1) (by omega) _ _
      · simp only [dif_neg hcond]

theorem pageLoop_pages_le (o : Oracle) (ch q cutoff region : String) (minSec : Rat)
    (max_pages : Nat) :
    ∀ (pages : Nat) (seen vids : List VideoId),
      (pageLoop o ch q cutoff region minSec max_pages pages seen vids).2 ≤
        max (max_pages - pages) 1 := by
  suffices h : ∀ (n pages : Nat), max_pages - pages = n → ∀ (seen vids : List VideoId),
      (pageLoop o ch q cutoff region minSec max_pages pages seen vids).2 ≤
        max (max_pages - pages) 1 by
    intro pages seen vids
    exact h (max_pages - pages) pages rfl seen vids
  intro n
  induction n with
  | zero =>
    intro pages hn seen vids
    rw [pageLoop.eq_def]
    cases hr : o.searchPage ch q cutoff region pages with
    | error e => simp
    | ok page =>
      have hcond : ¬ (page.hasNext = true ∧ pages + 1 < max_pages) := by
        rintro ⟨_, hlt⟩; omega
      simp only [dif_neg hcond]
      simp
  | succ k ih =>
    intro pages hn seen vids
    rw [pageLoop.eq_def]
    cases hr : o.searchPage ch q cutoff region pages with
    | error e => simp
    | ok page =>
      by_cases hcond : page.hasNext = true ∧ pages + 1 < max_pages
      · simp only [dif_pos hcond]
        have := ih (pages + 1) (by omega)
          (processItems minSec (pageDetails o page) seen vids).1
          (processItems minSec (pageDetails o page) seen vids).2
        simp only at this ⊢
        omega
      · simp only [dif_neg hcond]
        simp

theorem pageLoop_error (o : Oracle) (ch q cutoff region : String) (minSec : Rat)
    (max_pages pages : Nat) (seen vids : List VideoId) (e : Unit)
    (h : o.searchPage ch q cutoff region pages = .error e) :
    pageLoop o ch q cutoff region minSec max_pages pages seen vids = ((seen, vids), 1) := by
  rw [pageLoop.eq_def, h]

theorem pageLoop_ok (o : Oracle) (ch q cutoff region : String) (minSec : Rat)
    (max_pages pages : Nat) (seen vids : List VideoId) (page : Page)
    (h : o.searchPage ch q cutoff region pages = .ok page) :
    pageLoop o ch q cutoff region minSec max_pages pages seen vids =
      if page.hasNext = true ∧ pages + 1 < max_pages then
        ((pageLoop o ch q cutoff region minSec max_pages (pages + 1)
            (processItems minSec (pageDetails o page) seen vids).1
            (processItems minSec (pageDetails o page) seen vids).2).1,
         (pageLoop o ch q cutoff region minSec max_pages (pages + 1)
            (processItems minSec (pageDetails o page) seen vids).1
            (processItems minSec (pageDetails o page) seen vids).2).2 + 1)
      else (processItems minSec (pageDetails o page) seen vids, 1) := by
  rw [pageLoop.eq_def, h]
  by_cases hc : page.hasNext = true ∧ pages + 1 < max_pages
  · simp only [dif_pos hc, if_pos hc]
  · simp only [dif_neg hc, if_neg hc]

theorem pageStream_error (o : Oracle) (ch q cutoff region : String)
    (max_pages pages : Nat) (e : Unit)
    (h : o.searchPage ch q cutoff region pages = .error e) :
    pageStream o ch q cutoff region max_pages pages = [] := by
  rw [pageStream.eq_def, h]

theorem pageStream_ok (o : Oracle) (ch q cutoff region : String)
    (max_pages pages : Nat) (page : Page)
    (h : o.searchPage ch q cutoff region pages = .ok page) :
    pageStream o ch q cutoff region max_pages pages =
      if page.hasNext = true ∧ pages + 1 < max_pages then
        pageDetails o page ++ pageStream o ch q cutoff region max_pages (pages + 1)
      else pageDetails o page := by
  rw [pageStream.eq_def, h]
  by_cases hc : page.hasNext = true ∧ pages + 1 < max_pages
  · simp only [dif_pos hc, if_pos hc]
  · simp only [dif_neg hc, if_neg hc]

theorem searchLoop_eq (o : Oracle) (cutoff region : String) (minSec : Rat)
    (max_pages : Nat) :
    ∀ (pairs : List (String × String)) (seen vids : List VideoId),
      searchLoop o cutoff region minSec max_pages pairs seen vids =
        processItems minSec
          ((pairs.map (fun p => pageStream o p.1 p.2 cutoff region max_pages 0)).flatten)
          seen vids := by
  intro pairs
  induction pairs with
  | nil => intro seen vids; rfl
  | cons p rest ih =>
    intro seen vids
    simp only [searchLoop, List.map_cons, List.flatten_cons]
    rw [processItems_append, pageLoop_fst]
    exact ih _ _

theorem searchVideos_eq (o : Oracle) (cfg : Cfg) (cutoff region : String)
    (max_pages : Nat) :
    (searchVideos o cfg cutoff region max_pages).video_ids =
      List.foldl insStep []
        (qualIds (cfg.min_duration_minutes * 60)
          (encounterStream o cfg cutoff region max_pages)) := by
  by_cases hq : (buildQueries cfg).isEmpty
  · have hcombos : combos cfg = [] := by
      have : buildQueries cfg = [] := List.isEmpty_iff.mp hq
      simp [combos, this]
    simp [searchVideos, hq, encounterStream, hcombos, qualIds]
  · simp only [searchVideos, hq, if_false, if_neg, Bool.false_eq_true]
    rw [searchLoop_eq]
    exact (processItems_foldl _ _ [] [] (by simp)).1

/-! ## Playlist population (`_add_videos_to_playlist`, builder_lambda.py 273-297) -/

/-- True iff an external call succeeded. -/
def exceptOk (e : Except Unit Unit) : Bool :=
  match e with
  | .ok _ => true
  | .error _ => false

/-- `_add_videos_to_playlist`: one `playlistItems().insert` attempt per
identifier, in list order; an HttpError on one insertion is caught (lines
293-294) and the loop continues; `videos_added` counts successes. Returns
the count and, as instrumentation, the list of attempted insertions in
order. -/
def addVideosToPlaylist (insert : VideoId → Except Unit Unit) :
    List VideoId → Nat × List VideoId
  | [] => (0, [])
  | vid :: rest =>
    match insert vid with
    | .ok _ =>
      let r := addVideosToPlaylist insert rest
      (r.1 + 1, vid :: r.2)
    | .error _ =>
      let r := addVideosToPlaylist insert rest
      (r.1, vid :: r.2)

/-! ## The handlers -/

/-- The summaries the handlers return. `probeOk` is the test-mode probe
summary `{ok, message, channel}`; `runOk` is builder_lambda's
`{ok, playlist_id, videos_added, message?}`; `mainOk` is main.py's
`{ok, playlist_id}`. -/
inductive Summary where
  | probeOk (channel : String)
  | runOk (playlist_id : String) (videos_added : Nat) (message : Option String)
  | mainOk (playlist_id : String)
deriving DecidableEq

/-- The external calls a handler can issue, recorded as a trace. -/
inductive Call where
  | secretFetch
  | probe
  | reportWrite
  | loadConfig
  | createPlaylist
  | search
  | insertVideos
deriving DecidableEq

/-- The `playlist` task field of main.py (`{title, description?, privacy?,
tags?}`). -/
structure PlaylistSpec where
  title : String
  description : Option String := none
  privacy : Option String := none
  tags : List String := []

/-- The inbound task payload, after the dict-to-record normalization the
handlers perform at their boundary (key trimming in builder_lambda maps
canonical keys to themselves). -/
structure Task where
  competition_id : Option String := none
  earliest_date : Option EDate := none
  test_mode : Option PyVal := none
  region : Option String := none
  playlist : Option PlaylistSpec := none

/-- The process environment of `builder_lambda.py`: the two clock reads of
`_compute_cutoff_iso`, the `YOUTUBE_REGION_CODE` variable, `max_pages`, and
the outcomes of each external collaborator (secret fetch, connectivity
probe, channels.json load, playlist creation, the search oracle, playlist
insertion). -/
structure BEnv where
  nowUtc : Int := 0
  todayLocal : Int := 0
  regionEnvVar : Option String := none
  maxPages : Nat := 4
  secretOk : Bool := true
  probe : Except Unit String := .ok "Unknown Channel"
  config : Except Unit (String → Option Cfg) := .ok (fun _ => none)
  createPlaylist : Except Unit String := .ok "PL"
  oracle : Oracle :=
    { searchPage := fun _ _ _ _ _ => .error (), videosList := fun _ => .error () }
  insert : VideoId → Except Unit Unit := fun _ => .ok ()

/-- `handler` of `builder_lambda.py` (lines 28-142), with the raised Python
exceptions as `Except.error` and an explicit trace of the external calls
made. Order as in the source: coerce `test_mode` and `region`; validate
`competition_id` then `earliest_date` (lines 83-86, before anything else);
compute the cutoff (line 88); build the client from the secret (line 90, the
first network call); branch on test mode (probe only); load channels.json;
look up the competition; create the playlist; search; and either return the
zero-video summary (line 136) or populate and return the count (line 142). -/
def builderHandler (env : BEnv) (task : Task) : Except Err Summary × List Call :=
  let test_mode := builderCoerceTestMode (task.test_mode.getD (.bool false))
  let region_code := (pyOrStr task.region (pyOrStr env.regionEnvVar "SG")).toUpper
  if pyTruthyStr task.competition_id = false then
    (.error (.missingField "competition_id"), [])
  else if pyTruthyEDate task.earliest_date = false then
    (.error (.missingField "earliest_date"), [])
  else
    match computeCutoffIsoBuilder env.nowUtc env.todayLocal task.earliest_date with
    | .error e => (.error e, [])
    | .ok cutoff_iso =>
      if env.secretOk = false then (.error .httpError, [.secretFetch])
      else if test_mode then
        match env.probe with
        | .ok title => (.ok (.probeOk title), [.secretFetch, .probe])
        | .error _ => (.error .httpError, [.secretFetch, .probe])
      else
        match env.config with
        | .error _ => (.error .configError, [.secretFetch, .loadConfig])
        | .ok channel_map =>
          match channel_map (task.competition_id.getD "") with
          | none => (.error .unknownCompetition, [.secretFetch, .loadConfig])
          | some cfg =>
            match env.createPlaylist with
            | .error _ => (.error .httpError, [.secretFetch, .loadConfig, .createPlaylist])
            | .ok playlist_id =>
              let video_ids :=
                (searchVideos env.oracle cfg cutoff_iso region_code env.maxPages).video_ids
              if video_ids.isEmpty then
                (.ok (.runOk playlist_id 0 (some "No matching videos found")),
                  [.secretFetch, .loadConfig, .createPlaylist, .search])
              else
                (.ok (.runOk playlist_id (addVideosToPlaylist env.insert video_ids).1 none),
                  [.secretFetch, .loadConfig, .createPlaylist, .search, .insertVideos])

/-- The process environment of `main.py`; `reportsBucket` says whether the
optional REPORTS_BUCKET sink is configured. -/
structure MEnv where
  nowUtc : Int := 0
  todayLocal : Int := 0
  regionEnvVar : Option String := none
  maxPages : Nat := 4
  reportsBucket : Bool := false
  secretOk : Bool := true
  probe : Except Unit String := .ok "Unknown Channel"
  config : Except Unit (String → Option Cfg) := .ok (fun _ => none)
  createPlaylist : Except Unit String := .ok "PL"

/-- `handler` of `main.py` (lines 26-82). Key differences from the builder
variant, faithful to the source: `test_mode` is coerced by plain `bool(...)`
(line 37); the cutoff is computed on line 40, BEFORE the missing-field
checks of lines 42-45; the playlist descriptor comes from `task["playlist"]`
(KeyError when absent); and there is no search or population phase — the
handler returns right after ensuring the playlist. The test-mode branch also
writes a report line when a bucket is configured. -/
def mainHandler (env : MEnv) (task : Task) : Except Err Summary × List Call :=
  let test_mode := pyBool (task.test_mode.getD (.bool false))
  match computeCutoffIsoMain env.nowUtc env.todayLocal task.earliest_date with
  | .error e => (.error e, [])
  | .ok _cutoff_iso =>
    if pyTruthyStr task.competition_id = false then
      (.error (.missingField "competition_id"), [])
    else if pyTruthyEDate task.earliest_date = false then
      (.error (.missingField "earliest_date"), [])
    else if env.secretOk = false then (.error .httpError, [.secretFetch])
    else if test_mode then
      let reportCalls : List Call := if env.reportsBucket then [.reportWrite] else []
      match env.probe with
      | .ok title => (.ok (.probeOk title), [.secretFetch, .probe] ++ reportCalls)
      | .error _ => (.error .httpError, [.secretFetch, .probe] ++ reportCalls)
    else
      match env.config with
      | .error _ => (.error .configError, [.secretFetch, .loadConfig])
      | .ok channel_map =>
        match channel_map (task.competition_id.getD "") with
        | none => (.error .unknownCompetition, [.secretFetch, .loadConfig])
        | some _cfg =>
          match task.playlist with
          | none => (.error .keyError, [.secretFetch, .loadConfig])
          | some _pl =>
            match env.createPlaylist with
            | .error _ => (.error .httpError, [.secretFetch, .loadConfig, .createPlaylist])
            | .ok playlist_id =>
              (.ok (.mainOk playlist_id), [.secretFetch, .loadConfig, .createPlaylist])

/-! ## Concrete fixtures used by witnesses and counterexamples -/

/-- One page holding a 180 s video and a 180.1 s video. -/
def oC1 : Oracle :=
  { searchPage := fun _ _ _ _ _ =>
      .ok { items := [⟨some "vidA"⟩, ⟨some "vidB"⟩], hasNext := false },
    videosList := fun _ => .ok [⟨"vidA", 180⟩, ⟨"vidB", Rat.mk' 1801 10⟩] }

/-- A single channel, a single query, the default 3-minute threshold. -/
def cfgC1 : Cfg := { channel_ids := ["ch"], search_filter := "highlights" }

/-- The durations of `oC1`'s videos as a function of the identifier. -/
def durOfC1 : VideoId → Rat := fun v => if v = "vidB" then Rat.mk' 1801 10 else 180

theorem encounterStreamC1 :
    encounterStream oC1 cfgC1 "cut" "SG" 4 = [⟨"vidA", 180⟩, ⟨"vidB", Rat.mk' 1801 10⟩] := by
  rw [encounterStream, show combos cfgC1 = [("ch", "highlights")] from rfl]
  have h := pageStream_ok oC1 "ch" "highlights" "cut" "SG" 4 0
    { items := [⟨some "vidA"⟩, ⟨some "vidB"⟩], hasNext := false } rfl
  simp only [List.map_cons, List.map_nil, List.flatten, List.append_nil, h]
  decide

/-- First page: one candidate whose metadata fetch fails; a next page
exists; its video qualifies. -/
def oC5 : Oracle :=
  { searchPage := fun _ _ _ _ n =>
      if n = 0 then .ok { items := [⟨some "pageOneVid"⟩], hasNext := true }
      else .ok { items := [⟨some "pageTwoVid"⟩], hasNext := false },
    videosList := fun ids =>
      if ids = ["pageOneVid"] then .error () else .ok [⟨"pageTwoVid", 240⟩] }

/-- Every page succeeds, is empty and advertises a next page. -/
def oC8 : Oracle :=
  { searchPage := fun _ _ _ _ _ => .ok { items := [], hasNext := true },
    videosList := fun _ => .ok [] }

/-- Ten insertions with exactly the fourth failing. -/
def insertFailsFourth : VideoId → Except Unit Unit :=
  fun v => if v = "v04" then .error () else .ok ()

def tenVideos : List VideoId :=
  ["v01", "v02", "v03", "v04", "v05", "v06", "v07", "v08", "v09", "v10"]

/-- A known competition whose configured channel list is empty, so the
search trivially yields zero videos. -/
def cfgC9 : Cfg := { channel_ids := [], search_filter := "final" }

def envC9 : BEnv :=
  { config := .ok (fun c => if c = "comp" then some cfgC9 else none),
    createPlaylist := .ok "PL9" }

def taskC9 : Task :=
  { competition_id := some "comp", earliest_date := some (.dateStr 0) }

/-! ## The claims -/

/-- Claim C1 (confirmed): in the search phase a candidate video identifier
ends up in the result sequence iff it is encountered in the metadata stream
and its parsed duration in seconds is strictly greater than
`min_duration_minutes * 60`; a boundary-equal duration is excluded. Stated
for any assignment `durOf` of durations to identifiers consistent with the
oracle's responses (on the real API a video's duration is a function of its
identifier). -/
theorem C1_admission_iff (o : Oracle) (cfg : Cfg) (cutoff region : String)
    (max_pages : Nat) (durOf : VideoId → Rat)
    (hdur : ∀ d ∈ encounterStream o cfg cutoff region max_pages,
      d.duration = durOf d.id) (vid : VideoId) :
    vid ∈ (searchVideos o cfg cutoff region max_pages).video_ids ↔
      (vid ∈ (encounterStream o cfg cutoff region max_pages).map DetailItem.id ∧
        cfg.min_duration_minutes * 60 < durOf vid) := by
  rw [searchVideos_eq, mem_foldl_insStep]
  simp only [List.not_mem_nil, false_or, qualIds, List.mem_map, List.mem_filter,
    decide_eq_true_eq]
  constructor
  · rintro ⟨d, ⟨hdm, hdq⟩, hid⟩
    exact ⟨⟨d, hdm, hid⟩, by rw [← hid, ← hdur d hdm]; exact hdq⟩
  · rintro ⟨⟨d, hdm, hid⟩, hlt⟩
    exact ⟨d, ⟨hdm, by rw [hdur d hdm, hid]; exact hlt⟩, hid⟩

/-- Witness for C1 at a concrete input: a 180.0 s video is excluded and a
180.1 s video included at the 3-minute (180 s) threshold. -/
theorem C1_admission_iff_witness :
    (∀ d ∈ encounterStream oC1 cfgC1 "cut" "SG" 4, d.duration = durOfC1 d.id) ∧
    ("vidB" ∈ (searchVideos oC1 cfgC1 "cut" "SG" 4).video_ids ↔
      ("vidB" ∈ (encounterStream oC1 cfgC1 "cut" "SG" 4).map DetailItem.id ∧
        cfgC1.min_duration_minutes * 60 < durOfC1 "vidB")) := by
  have hdur : ∀ d ∈ encounterStream oC1 cfgC1 "cut" "SG" 4, d.duration = durOfC1 d.id := by
    rw [encounterStreamC1]
    intro d hd
    simp only [List.mem_cons, List.not_mem_nil, or_false] at hd
    rcases hd with rfl | rfl <;> decide
  exact ⟨hdur, C1_admission_iff oC1 cfgC1 "cut" "SG" 4 durOfC1 hdur "vidB"⟩

/-- Claim C2 (confirmed): the identifier sequence the search returns has no
duplicates, and it is exactly the first-occurrence deduplication of the
qualifying encounter stream — identifiers in first-encountered order. -/
theorem C2_dedup_first_order (o : Oracle) (cfg : Cfg) (cutoff region : String)
    (max_pages : Nat) :
    (searchVideos o cfg cutoff region max_pages).video_ids.Nodup ∧
    (searchVideos o cfg cutoff region max_pages).video_ids =
      specDedupFirst (qualIds (cfg.min_duration_minutes * 60)
        (encounterStream o cfg cutoff region max_pages)) := by
  refine ⟨?_, by rw [searchVideos_eq]; rfl⟩
  rw [searchVideos_eq]
  exact foldl_insStep_nodup _ [] List.nodup_nil

/-- Claim C3 (confirmed): for a valid date-only input `D`, both variants
return exactly `now_utc - (today_local - D) days - 24 h`, formatted at
second precision with a literal "Z" appended; and (builder variant) the
time-of-day and timezone marker of a datetime input are discarded before
the day-difference computation. -/
theorem C3_cutoff_formula (nowUtc todayLocal D : Int) :
    computeCutoffIsoBuilder nowUtc todayLocal (some (.dateStr D)) =
        .ok (isoUtcSeconds (nowUtc - (todayLocal - D) * 86400 - 86400) ++ "Z") ∧
    computeCutoffIsoMain nowUtc todayLocal (some (.dateStr D)) =
        .ok (isoUtcSeconds (nowUtc - (todayLocal - D) * 86400 - 86400) ++ "Z") ∧
    (∀ (secOfDay : Nat) (z : Bool),
      computeCutoffIsoBuilder nowUtc todayLocal (some (.dateTimeStr D secOfDay z)) =
        computeCutoffIsoBuilder nowUtc todayLocal (some (.dateStr D))) :=
  ⟨rfl, rfl, fun _ _ => rfl⟩

/-- Claim C4 (confirmed): the populate operation attempts every identifier
in sequence order regardless of failures (the attempt list equals the
input), and returns exactly the number of successful insertions; with ten
requested and exactly the fourth failing, the count is 9 and all ten
attempts are made. -/
theorem C4_populate_counts (insert : VideoId → Except Unit Unit)
    (video_ids : List VideoId) :
    (addVideosToPlaylist insert video_ids).2 = video_ids ∧
    (addVideosToPlaylist insert video_ids).1 =
      video_ids.countP (fun v => exceptOk (insert v)) ∧
    (addVideosToPlaylist insertFailsFourth tenVideos).1 = 9 ∧
    (addVideosToPlaylist insertFailsFourth tenVideos).2 = tenVideos := by
  have h : ∀ l : List VideoId, (addVideosToPlaylist insert l).2 = l ∧
      (addVideosToPlaylist insert l).1 = l.countP (fun v => exceptOk (insert v)) := by
    intro l
    induction l with
    | nil => exact ⟨rfl, rfl⟩
    | cons vid rest ih =>
      cases hv : insert vid with
      | ok u => simp [addVideosToPlaylist, hv, List.countP_cons, exceptOk, ih.1, ih.2]
      | error u => simp [addVideosToPlaylist, hv, List.countP_cons, exceptOk, ih.1, ih.2]
  exact ⟨(h video_ids).1, (h video_ids).2, by decide, by decide⟩

/-- Counterexample to C5 as stated: with `oC5`, the metadata fetch of page
one fails, yet the loop fetches a second page (2 search requests) and
admits its qualifying video — the page loop is NOT broken out of on a
metadata-fetch failure. -/
theorem C5_counterexample :
    pageLoop oC5 "ch" "q" "cut" "SG" 180 4 0 [] [] =
      ((["pageTwoVid"], ["pageTwoVid"]), 2) := by
  have h0 := pageLoop_ok oC5 "ch" "q" "cut" "SG" 180 4 0 [] []
    { items := [⟨some "pageOneVid"⟩], hasNext := true } rfl
  have h1 := pageLoop_ok oC5 "ch" "q" "cut" "SG" 180 4 1 [] []
    { items := [⟨some "pageTwoVid"⟩], hasNext := false } rfl
  have hX : processItems 180
      (pageDetails oC5 { items := [⟨some "pageOneVid"⟩], hasNext := true })
      ([] : List VideoId) [] = ([], []) := by decide
  have hY : processItems 180
      (pageDetails oC5 { items := [⟨some "pageTwoVid"⟩], hasNext := false })
      ([] : List VideoId) [] = (["pageTwoVid"], ["pageTwoVid"]) := by decide
  rw [hX] at h0
  rw [hY] at h1
  simp only [show ((0:Nat) + 1 < 4) = True by simp, true_and, if_true, Bool.true_and,
    eq_self_iff_true] at h0
  simp at h0 h1
  rw [h0, h1]

/-- Claim C5 amended (the provable part): a `search.list` failure abandons
the channel/query combination with the accumulator unchanged after that one
request; a `videos.list` (metadata) failure only discards that page's
candidates — the accumulator passes through unchanged — and paging
continues under the normal token/max-pages rule. -/
theorem C5_failure_policy :
    (∀ (o : Oracle) (ch q cutoff region : String) (minSec : Rat)
        (max_pages pages : Nat) (seen vids : List VideoId) (e : Unit),
      o.searchPage ch q cutoff region pages = .error e →
      pageLoop o ch q cutoff region minSec max_pages pages seen vids =
        ((seen, vids), 1)) ∧
    (∀ (o : Oracle) (ch q cutoff region : String) (minSec : Rat)
        (max_pages pages : Nat) (seen vids : List VideoId) (page : Page),
      o.searchPage ch q cutoff region pages = .ok page →
      o.videosList (page.items.filterMap SearchItem.videoId) = .error () →
      pageLoop o ch q cutoff region minSec max_pages pages seen vids =
        if page.hasNext = true ∧ pages + 1 < max_pages then
          ((pageLoop o ch q cutoff region minSec max_pages (pages + 1) seen vids).1,
           (pageLoop o ch q cutoff region minSec max_pages (pages + 1) seen vids).2 + 1)
        else ((seen, vids), 1)) := by
  constructor
  · intro o ch q cutoff region minSec mp p seen vids e h
    exact pageLoop_error o ch q cutoff region minSec mp p seen vids e h
  · intro o ch q cutoff region minSec mp p seen vids page h hvl
    have hpd : pageDetails o page = [] := by
      unfold pageDetails
      by_cases hc : (page.items.filterMap SearchItem.videoId).isEmpty
      · simp [hc]
      · simp [hc, hvl]
    rw [pageLoop_ok o ch q cutoff region minSec mp p seen vids page h, hpd]
    simp [processItems]

/-- Counterexample to C6 as stated: in the `main.py` variant, a task with a
competition identifier but no earliest-date reaches the cutoff resolver
first (line 40) and fails there with an AttributeError, not with the
missing-field validation error. -/
theorem C6_counterexample :
    mainHandler {} { competition_id := some "league_x", earliest_date := none } =
      (.error .attributeError, []) := rfl

/-- Claim C6 amended: in the builder variant, a missing competition
identifier or earliest-date raises the corresponding missing-field error
before any external call (empty trace); in the main variant a missing
competition identifier (with a valid date) still raises the missing-field
error before any external call, but a missing earliest-date instead raises
an AttributeError from the cutoff resolver — also before any external call. -/
theorem C6_validation_order :
    (∀ (env : BEnv) (task : Task), pyTruthyStr task.competition_id = false →
      builderHandler env task = (.error (.missingField "competition_id"), [])) ∧
    (∀ (env : BEnv) (task : Task), pyTruthyStr task.competition_id = true →
      pyTruthyEDate task.earliest_date = false →
      builderHandler env task = (.error (.missingField "earliest_date"), [])) ∧
    (∀ (env : MEnv) (task : Task), task.earliest_date = none →
      mainHandler env task = (.error .attributeError, [])) ∧
    (∀ (env : MEnv) (task : Task) (D : Int),
      task.earliest_date = some (.dateStr D) →
      pyTruthyStr task.competition_id = false →
      mainHandler env task = (.error (.missingField "competition_id"), [])) := by
  refine ⟨?_, ?_, ?_, ?_⟩
  · intro env task h
    simp [builderHandler, h]
  · intro env task h1 h2
    simp [builderHandler, h1, h2]
  · intro env task h
    simp [mainHandler, h, computeCutoffIsoMain]
  · intro env task D h1 h2
    simp [mainHandler, h1, h2, computeCutoffIsoMain]

/-- Claim C7 (confirmed): with both the search filter and the keyword list
empty, the search returns the empty sequence and logs the warning, for every
channel list, cutoff, region, page limit and oracle (and raises nothing: the
function is total and returns normally). -/
theorem C7_no_queries (o : Oracle) (channel_ids : List String) (minMinutes : Rat)
    (cutoff region : String) (max_pages : Nat) :
    (searchVideos o ⟨channel_ids, "", minMinutes, []⟩ cutoff region max_pages).video_ids
        = [] ∧
    LogEvent.warnNoQueries ∈
      (searchVideos o ⟨channel_ids, "", minMinutes, []⟩ cutoff region max_pages).log := by
  constructor <;> simp [searchVideos, buildQueries]

/-- Counterexample to C8 as stated: with `max_pages = 0` the loop still
fetches one page (the cap is only checked after a fetch), so "never fetches
more than max_pages pages" fails at max_pages = 0. -/
theorem C8_counterexample :
    (pageLoop oC8 "ch" "q" "cut" "SG" 180 0 0 [] []).2 = 1 ∧
    ¬ ((pageLoop oC8 "ch" "q" "cut" "SG" 180 0 0 [] []).2 ≤ 0) := by
  have h := pageLoop_ok oC8 "ch" "q" "cut" "SG" 180 0 0 [] [] { items := [], hasNext := true } rfl
  simp only [show ¬ ((0:Nat) + 1 < 0) by omega, and_false, if_false] at h
  rw [h]
  exact ⟨rfl, by omega⟩

/-- Claim C8 amended: the page loop for one channel/query combination issues
at most `max (max_pages) 1` search requests — for `max_pages ≥ 1` that is
the claimed `max_pages` bound; at `max_pages = 0` one page is still fetched
because the cap is tested only after each fetch. Paging also stops at the
first page without a continuation token. -/
theorem C8_page_bound (o : Oracle) (ch q cutoff region : String) (minSec : Rat)
    (max_pages : Nat) (seen vids : List VideoId) :
    (pageLoop o ch q cutoff region minSec max_pages 0 seen vids).2 ≤ max max_pages 1 := by
  simpa using pageLoop_pages_le o ch q cutoff region minSec max_pages 0 seen vids

/-- Claim C9 (confirmed): a non-test-mode run on a known competition whose
search yields zero qualifying videos still creates the playlist and returns
the success summary with `videos_added = 0`; the trace shows the playlist
creation happened and no insertion call was made. -/
theorem C9_zero_videos (env : BEnv) (task : Task) (c : String) (D : Int)
    (cfgMap : String → Option Cfg) (cfg : Cfg) (pid : String)
    (hcomp : task.competition_id = some c) (hc : c ≠ "")
    (hdate : task.earliest_date = some (.dateStr D))
    (htm : builderCoerceTestMode (task.test_mode.getD (.bool false)) = false)
    (hsecret : env.secretOk = true)
    (hconf : env.config = .ok cfgMap) (hcfg : cfgMap c = some cfg)
    (hcreate : env.createPlaylist = .ok pid)
    (hsearch : (searchVideos env.oracle cfg
        (isoZ (cutoffInstant env.nowUtc env.todayLocal D))
        ((pyOrStr task.region (pyOrStr env.regionEnvVar "SG")).toUpper)
        env.maxPages).video_ids = []) :
    builderHandler env task =
      (.ok (.runOk pid 0 (some "No matching videos found")),
        [.secretFetch, .loadConfig, .createPlaylist, .search]) := by
  simp [builderHandler, hcomp, hc, hdate, htm, hsecret, hconf, hcfg, hcreate,
    computeCutoffIsoBuilder, pyTruthyStr, pyTruthyEDate, hsearch]

/-- Witness for C9 at a concrete environment and task. -/
theorem C9_zero_videos_witness :
    ((searchVideos envC9.oracle cfgC9
        (isoZ (cutoffInstant envC9.nowUtc envC9.todayLocal 0))
        ((pyOrStr taskC9.region (pyOrStr envC9.regionEnvVar "SG")).toUpper)
        envC9.maxPages).video_ids = []) ∧
    builderHandler envC9 taskC9 =
      (.ok (.runOk "PL9" 0 (some "No matching videos found")),
        [.secretFetch, .loadConfig, .createPlaylist, .search]) := by
  have hs : (searchVideos envC9.oracle cfgC9
      (isoZ (cutoffInstant envC9.nowUtc envC9.todayLocal 0))
      ((pyOrStr taskC9.region (pyOrStr envC9.regionEnvVar "SG")).toUpper)
      envC9.maxPages).video_ids = [] := rfl
  exact ⟨hs, C9_zero_videos envC9 taskC9 "comp" 0 _ cfgC9 "PL9" rfl (by decide)
    rfl rfl rfl rfl (by rfl) rfl hs⟩

/-- Claim C10 (confirmed): the builder variant coerces a string test_mode to
true iff its stripped lowercase form is one of "true", "1", "yes", "y" (so
"false" disables test mode), while the main variant uses plain truthiness,
so every non-empty string — including "false" and "0" — enables test mode. -/
theorem C10_test_mode_coercion :
    (∀ s : String, builderCoerceTestMode (.str s) = true ↔
      pyLower (pyStrip s) ∈ ["true", "1", "yes", "y"]) ∧
    (∀ s : String, pyBool (.str s) = true ↔ s ≠ "") ∧
    builderCoerceTestMode (.str "false") = false ∧
    builderCoerceTestMode (.str " TRUE ") = true ∧
    pyBool (.str "false") = true ∧
    pyBool (.str "0") = true ∧
    pyBool (.str "") = false := by
  refine ⟨?_, ?_, by decide, by decide, by decide, by decide, by decide⟩
  · intro s
    simp [builderCoerceTestMode, List.elem_iff]
  · intro s
    simp [pyBool]

end YPB
